import Mathlib

/-!
Verification of the quickjs embedding bridge (quickjsruntime.rs and
quickjs_utils/reflection.rs) against its specification.

The bridge's own control flow is translated directly from the source.
Collaborators that live outside the given sources (the JSValueRef wrapper,
EsError, EsScript, the AutoIdMap store from hirofa_utils, and the opaque
quickjs C API) are modelled from the specification, each marked in its doc
comment.  The engine itself is abstracted as an EngineModel: a function
giving, for each script, the raw value JS_Eval returns and the engine state
(exception slot, pending job queue) after the call.
-/

set_option autoImplicit false

/-- Modelled from the spec: the raw engine handle, an opaque tagged union of
an inline scalar and a tag (crate valueref is not under src). -/
structure JSValue where
  u : Int
  tag : Int
deriving DecidableEq, Repr

/-- Modelled from the spec: the engine's reserved exception tag
(TAG_EXCEPTION from crate valueref, not under src). -/
def TAG_EXCEPTION : Int := 6

/-- Modelled from the spec: the tag of an inline 32-bit integer value. -/
def TAG_INT : Int := 0

/-- Modelled from the spec: the structured exception shape, name, message
and stack (crate eserror is not under src). -/
structure EsError where
  name : String
  message : String
  stack : String
deriving DecidableEq, Repr

/-- Modelled from the spec: EsError built from a plain string message. -/
def EsError.new_str (message : String) : EsError :=
  { name := "", message := message, stack := "" }

/-- Modelled from the spec: EsError built from an owned string message. -/
def EsError.new_string (message : String) : EsError :=
  { name := "", message := message, stack := "" }

/-- Modelled from the spec: a script is a path plus source code
(crate esscript is not under src). -/
structure EsScript where
  path : String
  code : String
deriving DecidableEq, Repr

def EsScript.get_path (s : EsScript) : String := s.path

def EsScript.get_code (s : EsScript) : String := s.code

/-- Modelled from the spec: the Owned Reference wrapper over one engine
handle (crate valueref is not under src); the two booleans mirror the
ref-count-increment and label bookkeeping arguments of JSValueRef::new. -/
structure JSValueRef where
  value : JSValue
  label : String
deriving DecidableEq, Repr

/-- Modelled from the spec: wrap a raw handle, classifying it by tag. -/
def JSValueRef.new (value_raw : JSValue) (_ref_ct_incr : Bool)
    (_completely_free : Bool) (label : String) : JSValueRef :=
  { value := value_raw, label := label }

/-- Modelled from the spec: pure inspection, true iff the handle carries the
reserved exception tag. -/
def JSValueRef.is_exception (r : JSValueRef) : Bool :=
  r.value.tag == TAG_EXCEPTION

/-- True iff the string contains a NUL character; CString::new fails exactly
on such strings. -/
def hasInteriorNul (s : String) : Bool :=
  s.toList.any (fun c => c == Char.ofNat 0)

/-- Helper for creating CStrings, from quickjsruntime.rs: fails with the
could-not-create-cstring error when the string holds a NUL byte. -/
def make_cstring (value : String) : Except EsError String :=
  if hasInteriorNul value then
    Except.error (EsError.new_string ("could not create cstring from " ++ value))
  else
    Except.ok value

/-! ## Handle cache (AutoIdMap from hirofa_utils, used by quickjsruntime.rs) -/

/-- Modelled from the spec: the AutoIdMap store from hirofa_utils (not under
src): integer identifiers are assigned monotonically and must not collide
with any currently-live identifier; the table is modelled as a function from
identifiers to optional stored values. -/
structure AutoIdMap (V : Type) where
  tbl : Nat → Option V
  next_id : Nat
  max_size : Nat

/-- Modelled from the spec: an empty AutoIdMap with the given capacity. -/
def AutoIdMap.new_with_max_size (V : Type) (max_size : Nat) : AutoIdMap V :=
  { tbl := fun _ => none, next_id := 0, max_size := max_size }

/-- Modelled from the spec: insert assigns the next fresh identifier and
stores the value under it. -/
def AutoIdMap.insert {V : Type} (m : AutoIdMap V) (v : V) : Nat × AutoIdMap V :=
  (m.next_id,
   { tbl := fun k => if k = m.next_id then some v else m.tbl k,
     next_id := m.next_id + 1,
     max_size := m.max_size })

/-- Modelled from the spec: borrow the value stored under an identifier. -/
def AutoIdMap.get {V : Type} (m : AutoIdMap V) (id : Nat) : Option V :=
  m.tbl id

/-- Modelled from the spec: remove returns the stored value, transferring
ownership to the caller; removing an identifier that is not live is a fatal
bookkeeping violation, modelled as none. -/
def AutoIdMap.remove {V : Type} (m : AutoIdMap V) (id : Nat) :
    Option (V × AutoIdMap V) :=
  match m.tbl id with
  | none => none
  | some v =>
    some (v,
      { tbl := fun k => if k = id then none else m.tbl k,
        next_id := m.next_id,
        max_size := m.max_size })

/-- Well-formedness of the cache: every identifier at or above the next
fresh identifier is unused, so freshly assigned identifiers never collide
with live entries. -/
def AutoIdMap.wf {V : Type} (m : AutoIdMap V) : Prop :=
  ∀ k, m.next_id ≤ k → m.tbl k = none

/-- The object cache of QuickJsRuntime: an AutoIdMap of Owned References
(field object_cache in quickjsruntime.rs). -/
abbrev ObjectCache := AutoIdMap JSValueRef

/-- QuickJsRuntime::cache_object: insert an Owned Reference into the object
cache, returning its identifier (quickjsruntime.rs). -/
def QuickJsRuntime.cache_object (cache : ObjectCache) (obj : JSValueRef) :
    Nat × ObjectCache :=
  AutoIdMap.insert cache obj

/-- QuickJsRuntime::consume_cached_obj: remove the entry for the identifier
from the object cache, handing the Owned Reference back to the caller; a
missing identifier is fatal, modelled as none (quickjsruntime.rs). -/
def QuickJsRuntime.consume_cached_obj (cache : ObjectCache) (id : Nat) :
    Option (JSValueRef × ObjectCache) :=
  AutoIdMap.remove cache id

/-- QuickJsRuntime::with_cached_obj: apply the consumer to the entry
borrowed from the cache; the entry stays in the cache, and a missing
identifier makes the expect call fatal, modelled as none
(quickjsruntime.rs). -/
def QuickJsRuntime.with_cached_obj {R : Type} (cache : ObjectCache) (id : Nat)
    (consumer : JSValueRef → R) : Option R × ObjectCache :=
  ((AutoIdMap.get cache id).map consumer, cache)

/-! ## Class registry and constructor trampoline (reflection.rs) -/

/-- The name-to-class-id table CLASSNAME_CLASSID_MAPPINGS of reflection.rs,
a HashMap modelled as an association list where the most recent insertion
for a key shadows older ones. -/
abbrev ClassRegistry := List (String × Int)

/-- HashMap::get on the registry: the value of the most recent insertion
for the key, if any. -/
def findMapping (m : ClassRegistry) (k : String) : Option Int :=
  match m with
  | [] => none
  | p :: rest => if p.1 = k then some p.2 else findMapping rest k

/-- reflection::register_class_name: record a name-to-class-id mapping in
the registry (reflection.rs). -/
def reflection.register_class_name (m : ClassRegistry) (class_name : String)
    (class_id : Int) : ClassRegistry :=
  (class_name, class_id) :: m

/-- reflection::resolve_class_id: look the class name up in the registry;
the unwrap on a missing name is fatal, modelled as none (reflection.rs). -/
def reflection.resolve_class_id (m : ClassRegistry) (class_name : String) :
    Option Int :=
  findMapping m class_name

/-- A registered engine-heap object: its class id and its property table
(name, value, property flags); used to model JS_NewObjectClass and
set_property2 for the constructor trampoline. -/
structure JSObject where
  class_id : Int
  props : List (String × JSValue × Nat)
deriving DecidableEq, Repr

/-- Modelled from the spec: quickjs property flag for configurability. -/
def JS_PROP_CONFIGURABLE : Nat := 1

/-- Modelled from the spec: quickjs property flag for writability. -/
def JS_PROP_WRITABLE : Nat := 2

/-- Modelled from the spec: quickjs property flag for enumerability. -/
def JS_PROP_ENUMERABLE : Nat := 4

/-- Modelled from the spec: JS_NewObjectClass allocates a fresh object (no
own properties) tagged with the given class id. -/
def JS_NewObjectClass (class_id : Int) : JSObject :=
  { class_id := class_id, props := [] }

/-- Modelled from the spec: objects::set_property2 (not under src) defines a
property with the given value and explicit property flags. -/
def objects.set_property2 (obj : JSObject) (prop_name : String) (v : JSValue)
    (flags : Nat) : JSObject :=
  { obj with props := (prop_name, v, flags) :: obj.props }

/-- Modelled from the spec: primitives::from_i32 (not under src) wraps an
integer as an inline int-tagged engine value. -/
def primitives.from_i32 (v : Int) : JSValue :=
  { u := v, tag := TAG_INT }

/-- The first property entry stored under a name, if any. -/
def JSObject.get_prop (obj : JSObject) (prop_name : String) :
    Option (JSValue × Nat) :=
  obj.props.foldr (fun p acc => if p.1 = prop_name then some p.2 else acc) none

/-- The generic constructor trampoline of reflection.rs.  The engine calls
it with the constructing function as this; the trampoline reads that
function's name property and stringifies it (objects::get_property and
functions::call_to_string are not under src, so the stringified name is
taken as the argument ctor_name, modelled from the spec), resolves it
through the registry (fatal when absent, modelled as none), allocates a
fresh object tagged with the resolved class id, stamps the
_ES_INSTANCE_ID_ host instance-id property with flags 0 (not configurable,
writable or enumerable) and returns the new object. -/
def reflection.constructor (reg : ClassRegistry) (ctor_name : String) :
    Option JSObject :=
  match reflection.resolve_class_id reg ctor_name with
  | none => none
  | some class_id =>
    let class_val := JS_NewObjectClass class_id
    some (objects.set_property2 class_val "_ES_INSTANCE_ID_"
      (primitives.from_i32 2581) 0)

/-! ## Engine state, jobs and evaluation (quickjsruntime.rs) -/

/-- Modelled from the spec: one queued internal engine job (promise
reaction).  Running it either fails with an exception left in the engine's
exception slot, or succeeds and enqueues further jobs. -/
inductive Job : Type where
  | mk (failsWith : Option EsError) (enqueues : List Job)

/-- Modelled from the spec: the observable engine state the bridge touches,
its live exception slot and its pending internal job queue. -/
structure EngineState where
  exceptionSlot : Option EsError
  pendingJobs : List Job

/-- Modelled from the spec: the opaque engine, abstracted as what one
JS_Eval call does: given the eval flags, the code and filename CStrings and
the engine state, it yields the raw result handle and the state after the
call (exception slot possibly set, jobs possibly enqueued). -/
structure EngineModel where
  jsEval : Int → String → String → EngineState → JSValue × EngineState

/-- The JS_EVAL_TYPE_GLOBAL flag passed by QuickJsRuntime::eval. -/
def JS_EVAL_TYPE_GLOBAL : Int := 0

/-- The JS_EVAL_TYPE_MODULE flag passed by QuickJsRuntime::eval_module. -/
def JS_EVAL_TYPE_MODULE : Int := 1

/-- Modelled from the spec: JS_IsJobPending, positive iff a job is queued. -/
def JS_IsJobPending (s : EngineState) : Int :=
  if s.pendingJobs.isEmpty then 0 else 1

/-- QuickJsRuntime::has_pending_jobs (quickjsruntime.rs). -/
def QuickJsRuntime.has_pending_jobs (s : EngineState) : Bool :=
  JS_IsJobPending s > 0

/-- Modelled from the spec: JS_ExecutePendingJob pops and runs the first
queued job; a failing job returns a negative flag and leaves its exception
in the slot, a succeeding one returns a positive flag and appends the jobs
it enqueued; with an empty queue the flag is zero. -/
def JS_ExecutePendingJob (s : EngineState) : Int × EngineState :=
  match s.pendingJobs with
  | [] => (0, s)
  | Job.mk failsWith enq :: rest =>
    match failsWith with
    | some e => (-1, { exceptionSlot := some e, pendingJobs := rest })
    | none => (1, { exceptionSlot := s.exceptionSlot, pendingJobs := rest ++ enq })

/-- QuickJsRuntime::get_exception via errors::get_exception (not under
src): modelled from the spec, the live exception slot is read and cleared
by the act of reading it. -/
def QuickJsRuntime.get_exception (s : EngineState) :
    Option EsError × EngineState :=
  (s.exceptionSlot, { exceptionSlot := none, pendingJobs := s.pendingJobs })

/-- QuickJsRuntime::run_pending_job: execute one pending job; on a negative
flag, surface the exception read from the slot, with a fixed message when
none can be retrieved (quickjsruntime.rs). -/
def QuickJsRuntime.run_pending_job (s : EngineState) :
    Except EsError Unit × EngineState :=
  let p := JS_ExecutePendingJob s
  if p.1 < 0 then
    let q := QuickJsRuntime.get_exception p.2
    match q.1 with
    | some e => (Except.error e, q.2)
    | none =>
      (Except.error (EsError.new_str "Unknown exception while running pending job"), q.2)
  else
    (Except.ok (), p.2)

/-- The success-path drain loop of eval and eval_module: run pending jobs
while any remain.  The loop has no bound in the source; fuel makes it a
total function, and none marks the runs on which the source loop would
still be going after fuel iterations. -/
def drainJobs (fuel : Nat) (s : EngineState) :
    Option (Except EsError Unit × EngineState) :=
  if QuickJsRuntime.has_pending_jobs s then
    match fuel with
    | 0 => none
    | Nat.succ fuel' =>
      match QuickJsRuntime.run_pending_job s with
      | (Except.ok _, s1) => drainJobs fuel' s1
      | (Except.error e, s1) => some (Except.error e, s1)
  else
    some (Except.ok (), s)

/-- QuickJsRuntime::eval (quickjsruntime.rs): build the CStrings, call
JS_Eval with the global flag, wrap the raw result; on the exception
sentinel read the exception slot and fail (with a fixed fallback when the
slot is empty); otherwise drain pending jobs and return the wrapped
value. -/
def QuickJsRuntime.eval (m : EngineModel) (fuel : Nat) (script : EsScript)
    (s : EngineState) : Option (Except EsError JSValueRef × EngineState) :=
  match make_cstring script.get_path with
  | Except.error e => some (Except.error e, s)
  | Except.ok filename_c =>
    match make_cstring script.get_code with
    | Except.error e => some (Except.error e, s)
    | Except.ok code_c =>
      let p := m.jsEval JS_EVAL_TYPE_GLOBAL code_c filename_c s
      let ret := JSValueRef.new p.1 false true
        ("eval result of " ++ script.get_path)
      if ret.is_exception then
        let q := QuickJsRuntime.get_exception p.2
        match q.1 with
        | some ex => some (Except.error ex, q.2)
        | none =>
          some (Except.error
            (EsError.new_str "eval failed and could not get exception"), q.2)
      else
        match drainJobs fuel p.2 with
        | none => none
        | some (Except.error e, s2) => some (Except.error e, s2)
        | some (Except.ok _, s2) => some (Except.ok ret, s2)

/-- QuickJsRuntime::eval_module (quickjsruntime.rs): as eval, with the
module flag, the module result label and the module fallback message. -/
def QuickJsRuntime.eval_module (m : EngineModel) (fuel : Nat)
    (script : EsScript) (s : EngineState) :
    Option (Except EsError JSValueRef × EngineState) :=
  match make_cstring script.get_path with
  | Except.error e => some (Except.error e, s)
  | Except.ok filename_c =>
    match make_cstring script.get_code with
    | Except.error e => some (Except.error e, s)
    | Except.ok code_c =>
      let p := m.jsEval JS_EVAL_TYPE_MODULE code_c filename_c s
      let ret := JSValueRef.new p.1 false true
        ("eval_module result of " ++ script.get_path)
      if ret.is_exception then
        let q := QuickJsRuntime.get_exception p.2
        match q.1 with
        | some ex => some (Except.error ex, q.2)
        | none =>
          some (Except.error
            (EsError.new_str "eval_module failed and could not get exception"), q.2)
      else
        match drainJobs fuel p.2 with
        | none => none
        | some (Except.error e, s2) => some (Except.error e, s2)
        | some (Except.ok _, s2) => some (Except.ok ret, s2)

/-- The engine-release calls issued while dropping a QuickJsRuntime. -/
inductive FreeCall : Type where
  | freeContext
  | freeRuntime
deriving DecidableEq, Repr

/-- The Drop implementation of QuickJsRuntime as the trace of its
engine-release calls: JS_FreeContext on the context, then JS_FreeRuntime on
the runtime (quickjsruntime.rs). -/
def QuickJsRuntime.dropTrace : List FreeCall :=
  [FreeCall.freeContext, FreeCall.freeRuntime]

/-! ## Helper measures and lemmas -/

/-- Total number of jobs reachable from a queue, counting the jobs each job
would enqueue; bounds the number of drain-loop iterations. -/
def jobsSize : List Job → Nat
  | [] => 0
  | Job.mk _ enq :: rest => 1 + jobsSize enq + jobsSize rest

/-- True iff every job reachable from the queue succeeds when run. -/
def jobsAllOk : List Job → Bool
  | [] => true
  | Job.mk failsWith enq :: rest =>
    failsWith.isNone && jobsAllOk enq && jobsAllOk rest

/-- A finite sequence of later class registrations applied to a registry,
used to quantify over everything that can happen to the registry after one
class is registered. -/
def reflection.applyRegistrations (reg : ClassRegistry)
    (ops : List (String × Int)) : ClassRegistry :=
  ops.foldl (fun acc q => reflection.register_class_name acc q.1 q.2) reg

/-- Modelled from the spec: the structured error the exception API
reconstructs after script throws new Error with message boom. -/
def boomError : EsError := { name := "Error", message := "boom", stack := "" }

/-- Modelled from the spec: an engine on which every evaluation throws new
Error with message boom, so JS_Eval returns the exception sentinel and
leaves the structured exception in the live slot. -/
def boomEngine : EngineModel :=
  { jsEval := fun _flags _code _file s =>
      ({ u := 0, tag := TAG_EXCEPTION },
       { exceptionSlot := some boomError, pendingJobs := s.pendingJobs }) }

/-- An engine on which evaluation completes normally and schedules one
pending job that itself enqueues a second job; exercises the drain loop on
jobs enqueued during the drain. -/
def chainEngine : EngineModel :=
  { jsEval := fun _flags _code _file s =>
      ({ u := 2, tag := TAG_INT },
       { exceptionSlot := s.exceptionSlot,
         pendingJobs := [Job.mk none [Job.mk none []]] }) }

/-- A plain test script with well-formed path and code. -/
def testScript : EsScript := { path := "test.es", code := "1+1;" }

/-- A script whose code holds an interior NUL byte. -/
def nulScript : EsScript := { path := "test.es", code := "bad\x00code" }

/-- The engine state with an empty exception slot and no pending jobs. -/
def emptyState : EngineState := { exceptionSlot := none, pendingJobs := [] }

/-- A sample Owned Reference used to exercise the cache. -/
def witnessRef : JSValueRef :=
  { value := { u := 12, tag := TAG_INT }, label := "cached value" }

/-- The empty object cache with the capacity used by QuickJsRuntime::new. -/
def emptyCache : ObjectCache :=
  AutoIdMap.new_with_max_size JSValueRef 2147483647

/-- The cache holding exactly witnessRef under identifier zero. -/
def oneEntryCache : ObjectCache :=
  (QuickJsRuntime.cache_object emptyCache witnessRef).2

theorem jobsSize_append (a b : List Job) :
    jobsSize (a ++ b) = jobsSize a + jobsSize b := by
  induction a with
  | nil => simp [jobsSize]
  | cons j rest ih =>
    cases j with
    | mk f enq => simp [jobsSize, ih]; omega

theorem jobsAllOk_append (a b : List Job) :
    jobsAllOk (a ++ b) = (jobsAllOk a && jobsAllOk b) := by
  induction a with
  | nil => simp [jobsAllOk]
  | cons j rest ih =>
    cases j with
    | mk f enq =>
      simp [jobsAllOk, ih, Bool.and_assoc]

/-- If the drain loop finishes without an error, no job remains pending. -/
theorem drainJobs_ok_no_pending (fuel : Nat) (s s2 : EngineState)
    (u : Unit) (h : drainJobs fuel s = some (Except.ok u, s2)) :
    QuickJsRuntime.has_pending_jobs s2 = false := by
  induction fuel generalizing s with
  | zero =>
    rw [drainJobs] at h
    by_cases hp : QuickJsRuntime.has_pending_jobs s
    · simp [hp] at h
    · simp [hp] at h
      exact h ▸ (Bool.not_eq_true _).mp hp
  | succ fuel' ih =>
    rw [drainJobs] at h
    by_cases hp : QuickJsRuntime.has_pending_jobs s
    · simp [hp] at h
      rcases hr : QuickJsRuntime.run_pending_job s with ⟨res, s1⟩
      rw [hr] at h
      cases res with
      | ok v => exact ih s1 h
      | error e => simp at h
    · simp [hp] at h
      exact h ▸ (Bool.not_eq_true _).mp hp

/-- With enough fuel, a queue all of whose reachable jobs succeed drains
completely without an error. -/
theorem drainJobs_of_allOk (fuel : Nat) :
    ∀ s : EngineState, jobsAllOk s.pendingJobs = true →
    jobsSize s.pendingJobs ≤ fuel →
    ∃ s2, drainJobs fuel s = some (Except.ok (), s2) := by
  induction fuel with
  | zero =>
    rintro ⟨slot, jobs⟩ hok hsz
    cases jobs with
    | nil =>
      refine ⟨⟨slot, []⟩, ?_⟩
      rw [drainJobs]
      simp [QuickJsRuntime.has_pending_jobs, JS_IsJobPending]
    | cons j rest =>
      cases j with
      | mk f enq =>
        simp [jobsSize] at hsz
  | succ fuel' ih =>
    rintro ⟨slot, jobs⟩ hok hsz
    cases jobs with
    | nil =>
      refine ⟨⟨slot, []⟩, ?_⟩
      rw [drainJobs]
      simp [QuickJsRuntime.has_pending_jobs, JS_IsJobPending]
    | cons j rest =>
      cases j with
      | mk f enq =>
        simp only [jobsAllOk, Bool.and_eq_true, Option.isNone_iff_eq_none] at hok
        obtain ⟨⟨hf, henq⟩, hrest⟩ := hok
        subst hf
        have hstep : drainJobs (fuel' + 1) ⟨slot, Job.mk none enq :: rest⟩
            = drainJobs fuel' ⟨slot, rest ++ enq⟩ := by
          rw [drainJobs]
          simp [QuickJsRuntime.has_pending_jobs, JS_IsJobPending,
                QuickJsRuntime.run_pending_job, JS_ExecutePendingJob]
        rw [hstep]
        apply ih
        · simp [jobsAllOk_append, henq, hrest]
        · simp only [jobsSize] at hsz
          simp [jobsSize_append]
          omega

/-- Inversion of the success path of eval: a returned value is never the
exception sentinel and the final state has no pending job. -/
theorem eval_ok_inv (m : EngineModel) (fuel : Nat) (script : EsScript)
    (s : EngineState) (r : JSValueRef) (s2 : EngineState)
    (h : QuickJsRuntime.eval m fuel script s = some (Except.ok r, s2)) :
    r.is_exception = false ∧ QuickJsRuntime.has_pending_jobs s2 = false := by
  unfold QuickJsRuntime.eval at h
  split at h
  · simp at h
  · split at h
    · simp at h
    · dsimp only [] at h
      split at h
      · split at h <;> simp at h
      · rename_i hnotex
        split at h
        · simp at h
        · simp at h
        · rename_i u s3 hdrain
          simp only [Option.some.injEq, Prod.mk.injEq, Except.ok.injEq] at h
          obtain ⟨hr, hs⟩ := h
          refine ⟨?_, ?_⟩
          · rw [← hr]
            exact Bool.not_eq_true _ |>.mp hnotex
          · rw [← hs]
            exact drainJobs_ok_no_pending fuel _ s3 u hdrain

/-- Inversion of the success path of eval_module: a returned value is never
the exception sentinel and the final state has no pending job. -/
theorem eval_module_ok_inv (m : EngineModel) (fuel : Nat) (script : EsScript)
    (s : EngineState) (r : JSValueRef) (s2 : EngineState)
    (h : QuickJsRuntime.eval_module m fuel script s = some (Except.ok r, s2)) :
    r.is_exception = false ∧ QuickJsRuntime.has_pending_jobs s2 = false := by
  unfold QuickJsRuntime.eval_module at h
  split at h
  · simp at h
  · split at h
    · simp at h
    · dsimp only [] at h
      split at h
      · split at h <;> simp at h
      · rename_i hnotex
        split at h
        · simp at h
        · simp at h
        · rename_i u s3 hdrain
          simp only [Option.some.injEq, Prod.mk.injEq, Except.ok.injEq] at h
          obtain ⟨hr, hs⟩ := h
          refine ⟨?_, ?_⟩
          · rw [← hr]
            exact Bool.not_eq_true _ |>.mp hnotex
          · rw [← hs]
            exact drainJobs_ok_no_pending fuel _ s3 u hdrain

/-! ## Claim theorems -/

/-- C3: for every owned reference r, cache_object r returns an identifier
under which consume_cached_obj yields back an owned reference over the same
handle, and after that removal the identifier is dead: a second
consume_cached_obj on it returns nothing. -/
theorem cache_object_consume_roundtrip (cache : ObjectCache) (r : JSValueRef) :
    ∃ m2 : ObjectCache,
      QuickJsRuntime.consume_cached_obj (QuickJsRuntime.cache_object cache r).2
          (QuickJsRuntime.cache_object cache r).1 = some (r, m2) ∧
      QuickJsRuntime.consume_cached_obj m2
          (QuickJsRuntime.cache_object cache r).1 = none := by
  refine ⟨⟨fun k => if k = cache.next_id then none
             else if k = cache.next_id then some r else cache.tbl k,
           cache.next_id + 1, cache.max_size⟩, ?_, ?_⟩
  · show AutoIdMap.remove (AutoIdMap.insert cache r).2 cache.next_id = _
    unfold AutoIdMap.remove AutoIdMap.insert
    simp
  · show AutoIdMap.remove _ cache.next_id = none
    unfold AutoIdMap.remove
    simp

/-- C4: consume_cached_obj and with_cached_obj on an identifier that is not
live, and resolve_class_id on a name never registered, all hit the fatal
panic path (modelled as none) instead of a recoverable error result. -/
theorem bridge_contract_violations_fatal (cache : ObjectCache) (id : Nat)
    (reg : ClassRegistry) (class_name : String)
    (h1 : AutoIdMap.get cache id = none)
    (h2 : findMapping reg class_name = none) :
    QuickJsRuntime.consume_cached_obj cache id = none ∧
    (∀ (R : Type) (f : JSValueRef → R),
      (QuickJsRuntime.with_cached_obj cache id f).1 = none) ∧
    reflection.resolve_class_id reg class_name = none := by
  have h1' : cache.tbl id = none := h1
  refine ⟨?_, ?_, h2⟩
  · show AutoIdMap.remove cache id = none
    unfold AutoIdMap.remove
    rw [h1']
  · intro R f
    show (AutoIdMap.get cache id).map f = none
    rw [h1]
    rfl

theorem bridge_contract_violations_fatal_witness :
    QuickJsRuntime.consume_cached_obj emptyCache 0 = none ∧
    (QuickJsRuntime.with_cached_obj emptyCache 0 (fun v => v.label)).1 = none ∧
    reflection.resolve_class_id [] "Counter" = none :=
  ⟨(bridge_contract_violations_fatal emptyCache 0 [] "Counter" rfl rfl).1,
   (bridge_contract_violations_fatal emptyCache 0 [] "Counter" rfl rfl).2.1
     String (fun v => v.label),
   (bridge_contract_violations_fatal emptyCache 0 [] "Counter" rfl rfl).2.2⟩

/-- C8: with_cached_obj on a live identifier applies the consumer to the
borrowed entry and returns its result; the cache is left unchanged, so the
entry is still found afterwards. -/
theorem with_cached_obj_preserves_entry (cache : ObjectCache) (id : Nat)
    (v : JSValueRef) (R : Type) (f : JSValueRef → R)
    (h : AutoIdMap.get cache id = some v) :
    (QuickJsRuntime.with_cached_obj cache id f).1 = some (f v) ∧
    (QuickJsRuntime.with_cached_obj cache id f).2 = cache ∧
    ∃ m2, QuickJsRuntime.consume_cached_obj
        (QuickJsRuntime.with_cached_obj cache id f).2 id = some (v, m2) := by
  have h' : cache.tbl id = some v := h
  refine ⟨?_, rfl, ?_⟩
  · show (AutoIdMap.get cache id).map f = some (f v)
    rw [h]
    rfl
  · refine ⟨⟨fun k => if k = id then none else cache.tbl k,
             cache.next_id, cache.max_size⟩, ?_⟩
    show AutoIdMap.remove cache id = _
    unfold AutoIdMap.remove
    rw [h']

theorem with_cached_obj_preserves_entry_witness :
    (QuickJsRuntime.with_cached_obj oneEntryCache 0 (fun v => v.label)).1
        = some "cached value" ∧
    (QuickJsRuntime.with_cached_obj oneEntryCache 0 (fun v => v.label)).2
        = oneEntryCache ∧
    ∃ m2, QuickJsRuntime.consume_cached_obj
        (QuickJsRuntime.with_cached_obj oneEntryCache 0 (fun v => v.label)).2 0
        = some (witnessRef, m2) :=
  with_cached_obj_preserves_entry oneEntryCache 0 witnessRef String
    (fun v => v.label) rfl

/-- C9: dropping a QuickJsRuntime issues exactly one context release and
exactly one runtime release, the context release first. -/
theorem drop_frees_context_then_runtime :
    QuickJsRuntime.dropTrace.count FreeCall.freeContext = 1 ∧
    QuickJsRuntime.dropTrace.count FreeCall.freeRuntime = 1 ∧
    QuickJsRuntime.dropTrace.indexOf FreeCall.freeContext <
      QuickJsRuntime.dropTrace.indexOf FreeCall.freeRuntime := by
  refine ⟨rfl, rfl, ?_⟩
  decide

/-- Registrations of other names do not disturb an existing lookup. -/
theorem findMapping_applyRegistrations_of_ne (ops : List (String × Int)) :
    ∀ (reg : ClassRegistry) (class_name : String),
    (∀ p ∈ ops, p.1 ≠ class_name) →
    findMapping (reflection.applyRegistrations reg ops) class_name
      = findMapping reg class_name := by
  induction ops with
  | nil => intro reg nm _; rfl
  | cons p rest ih =>
    intro reg nm h
    have hp : p.1 ≠ nm := h p (List.mem_cons_self p rest)
    have hr : ∀ q ∈ rest, q.1 ≠ nm := fun q hq => h q (List.mem_cons_of_mem p hq)
    show findMapping
        (reflection.applyRegistrations
          (reflection.register_class_name reg p.1 p.2) rest) nm
      = findMapping reg nm
    rw [ih _ nm hr]
    simp [reflection.register_class_name, findMapping, hp]

/-- C5: after a class name is registered once with a class id, every later
resolve_class_id for that name, across any further registrations of other
names, yields that same id, and in particular every constructor-trampoline
invocation for that class tags its instance with that id. -/
theorem resolve_class_id_stable_after_register (reg : ClassRegistry)
    (class_name : String) (class_id : Int) (ops : List (String × Int))
    (hops : ∀ p ∈ ops, p.1 ≠ class_name) :
    reflection.resolve_class_id
        (reflection.applyRegistrations
          (reflection.register_class_name reg class_name class_id) ops)
        class_name = some class_id ∧
    ∀ obj, reflection.constructor
        (reflection.applyRegistrations
          (reflection.register_class_name reg class_name class_id) ops)
        class_name = some obj → obj.class_id = class_id := by
  have h1 : reflection.resolve_class_id
      (reflection.applyRegistrations
        (reflection.register_class_name reg class_name class_id) ops)
      class_name = some class_id := by
    show findMapping _ class_name = some class_id
    rw [findMapping_applyRegistrations_of_ne ops _ class_name hops]
    simp [reflection.register_class_name, findMapping]
  refine ⟨h1, ?_⟩
  intro obj hobj
  unfold reflection.constructor at hobj
  rw [h1] at hobj
  simp only [Option.some.injEq] at hobj
  rw [← hobj]
  rfl

theorem resolve_class_id_stable_after_register_witness :
    reflection.resolve_class_id
      (reflection.applyRegistrations
        (reflection.register_class_name [] "Counter" 7) [("Other", 9)])
      "Counter" = some 7 :=
  (resolve_class_id_stable_after_register [] "Counter" 7 [("Other", 9)]
    (by decide)).1

/-- C6: when the constructor trampoline runs for a function whose
stringified name resolves in the registry, it returns a fresh object tagged
with the resolved class id, carrying exactly the stamped _ES_INSTANCE_ID_
host instance-id property, whose flags make it non-enumerable, non-writable
and non-configurable. -/
theorem constructor_trampoline_builds_tagged_instance (reg : ClassRegistry)
    (ctor_name : String) (cid : Int)
    (h : reflection.resolve_class_id reg ctor_name = some cid) :
    ∃ obj, reflection.constructor reg ctor_name = some obj ∧
      obj.class_id = cid ∧
      (∃ fl, obj.get_prop "_ES_INSTANCE_ID_"
          = some (primitives.from_i32 2581, fl) ∧
        fl &&& JS_PROP_ENUMERABLE = 0 ∧
        fl &&& JS_PROP_WRITABLE = 0 ∧
        fl &&& JS_PROP_CONFIGURABLE = 0) ∧
      obj.props = [("_ES_INSTANCE_ID_", primitives.from_i32 2581, 0)] := by
  refine ⟨objects.set_property2 (JS_NewObjectClass cid) "_ES_INSTANCE_ID_"
      (primitives.from_i32 2581) 0, ?_, rfl, ⟨0, ?_, rfl, rfl, rfl⟩, rfl⟩
  · unfold reflection.constructor
    rw [h]
  · simp [JSObject.get_prop, objects.set_property2, JS_NewObjectClass]

theorem constructor_trampoline_builds_tagged_instance_witness :
    ∃ obj, reflection.constructor [("Counter", 3)] "Counter" = some obj ∧
      obj.class_id = 3 ∧
      (∃ fl, obj.get_prop "_ES_INSTANCE_ID_"
          = some (primitives.from_i32 2581, fl) ∧
        fl &&& JS_PROP_ENUMERABLE = 0 ∧
        fl &&& JS_PROP_WRITABLE = 0 ∧
        fl &&& JS_PROP_CONFIGURABLE = 0) ∧
      obj.props = [("_ES_INSTANCE_ID_", primitives.from_i32 2581, 0)] :=
  constructor_trampoline_builds_tagged_instance [("Counter", 3)] "Counter" 3
    (by decide)

/-- When the raw eval result carries the exception tag, eval returns the
error built from the exception slot as read right after the call, with the
fixed fallback when the slot is empty. -/
theorem eval_exception_eq (m : EngineModel) (fuel : Nat) (script : EsScript)
    (s : EngineState)
    (hp : hasInteriorNul script.path = false)
    (hc : hasInteriorNul script.code = false)
    (htag : (m.jsEval JS_EVAL_TYPE_GLOBAL script.code script.path s).1.tag
      = TAG_EXCEPTION) :
    QuickJsRuntime.eval m fuel script s =
      some (Except.error
          (((m.jsEval JS_EVAL_TYPE_GLOBAL script.code script.path s).2.exceptionSlot).getD
            (EsError.new_str "eval failed and could not get exception")),
        { exceptionSlot := none,
          pendingJobs :=
            (m.jsEval JS_EVAL_TYPE_GLOBAL script.code script.path s).2.pendingJobs }) := by
  have hmp : make_cstring script.path = Except.ok script.path := by
    simp [make_cstring, hp]
  have hmc : make_cstring script.code = Except.ok script.code := by
    simp [make_cstring, hc]
  cases hslot : (m.jsEval JS_EVAL_TYPE_GLOBAL script.code script.path s).2.exceptionSlot with
  | none =>
    simp [QuickJsRuntime.eval, hmp, hmc, JSValueRef.new, JSValueRef.is_exception,
          htag, QuickJsRuntime.get_exception, hslot, EsScript.get_path,
          EsScript.get_code]
  | some ex =>
    simp [QuickJsRuntime.eval, hmp, hmc, JSValueRef.new, JSValueRef.is_exception,
          htag, QuickJsRuntime.get_exception, hslot, EsScript.get_path,
          EsScript.get_code]

/-- Module analogue of eval_exception_eq, with the module fallback
message. -/
theorem eval_module_exception_eq (m : EngineModel) (fuel : Nat)
    (script : EsScript) (s : EngineState)
    (hp : hasInteriorNul script.path = false)
    (hc : hasInteriorNul script.code = false)
    (htag : (m.jsEval JS_EVAL_TYPE_MODULE script.code script.path s).1.tag
      = TAG_EXCEPTION) :
    QuickJsRuntime.eval_module m fuel script s =
      some (Except.error
          (((m.jsEval JS_EVAL_TYPE_MODULE script.code script.path s).2.exceptionSlot).getD
            (EsError.new_str "eval_module failed and could not get exception")),
        { exceptionSlot := none,
          pendingJobs :=
            (m.jsEval JS_EVAL_TYPE_MODULE script.code script.path s).2.pendingJobs }) := by
  have hmp : make_cstring script.path = Except.ok script.path := by
    simp [make_cstring, hp]
  have hmc : make_cstring script.code = Except.ok script.code := by
    simp [make_cstring, hc]
  cases hslot : (m.jsEval JS_EVAL_TYPE_MODULE script.code script.path s).2.exceptionSlot with
  | none =>
    simp [QuickJsRuntime.eval_module, hmp, hmc, JSValueRef.new,
          JSValueRef.is_exception, htag, QuickJsRuntime.get_exception, hslot,
          EsScript.get_path, EsScript.get_code]
  | some ex =>
    simp [QuickJsRuntime.eval_module, hmp, hmc, JSValueRef.new,
          JSValueRef.is_exception, htag, QuickJsRuntime.get_exception, hslot,
          EsScript.get_path, EsScript.get_code]

/-- C1: if the raw evaluation result carries the reserved exception tag,
eval and eval_module return the error built from the exception slot read
immediately after the failing call, falling back to the fixed error when no
exception can be retrieved; a value is returned only when the result is not
the exception sentinel. -/
theorem eval_sentinel_surfaces_exception (m : EngineModel) (fuel : Nat)
    (script : EsScript) (s : EngineState)
    (hp : hasInteriorNul script.path = false)
    (hc : hasInteriorNul script.code = false) :
    ((m.jsEval JS_EVAL_TYPE_GLOBAL script.code script.path s).1.tag = TAG_EXCEPTION →
      QuickJsRuntime.eval m fuel script s =
        some (Except.error
            (((m.jsEval JS_EVAL_TYPE_GLOBAL script.code script.path s).2.exceptionSlot).getD
              (EsError.new_str "eval failed and could not get exception")),
          { exceptionSlot := none,
            pendingJobs :=
              (m.jsEval JS_EVAL_TYPE_GLOBAL script.code script.path s).2.pendingJobs })) ∧
    (∀ r s2, QuickJsRuntime.eval m fuel script s = some (Except.ok r, s2) →
      r.is_exception = false) ∧
    ((m.jsEval JS_EVAL_TYPE_MODULE script.code script.path s).1.tag = TAG_EXCEPTION →
      QuickJsRuntime.eval_module m fuel script s =
        some (Except.error
            (((m.jsEval JS_EVAL_TYPE_MODULE script.code script.path s).2.exceptionSlot).getD
              (EsError.new_str "eval_module failed and could not get exception")),
          { exceptionSlot := none,
            pendingJobs :=
              (m.jsEval JS_EVAL_TYPE_MODULE script.code script.path s).2.pendingJobs })) ∧
    (∀ r s2, QuickJsRuntime.eval_module m fuel script s = some (Except.ok r, s2) →
      r.is_exception = false) := by
  refine ⟨?_, ?_, ?_, ?_⟩
  · intro htag
    exact eval_exception_eq m fuel script s hp hc htag
  · intro r s2 h
    exact (eval_ok_inv m fuel script s r s2 h).1
  · intro htag
    exact eval_module_exception_eq m fuel script s hp hc htag
  · intro r s2 h
    exact (eval_module_ok_inv m fuel script s r s2 h).1

theorem eval_sentinel_surfaces_exception_witness :
    QuickJsRuntime.eval boomEngine 0 testScript emptyState =
      some (Except.error boomError,
        { exceptionSlot := none, pendingJobs := [] }) :=
  (eval_sentinel_surfaces_exception boomEngine 0 testScript emptyState
    rfl rfl).1 rfl

/-- C2: whenever eval or eval_module returns a value, the returned engine
state has no pending job: the success path ran the drain loop to
quiescence, including jobs enqueued by earlier jobs during the drain. -/
theorem eval_ok_drains_pending_jobs (m : EngineModel) (fuel : Nat)
    (script : EsScript) (s : EngineState) (r : JSValueRef) (s2 : EngineState) :
    (QuickJsRuntime.eval m fuel script s = some (Except.ok r, s2) →
      QuickJsRuntime.has_pending_jobs s2 = false) ∧
    (QuickJsRuntime.eval_module m fuel script s = some (Except.ok r, s2) →
      QuickJsRuntime.has_pending_jobs s2 = false) :=
  ⟨fun h => (eval_ok_inv m fuel script s r s2 h).2,
   fun h => (eval_module_ok_inv m fuel script s r s2 h).2⟩

theorem eval_ok_drains_pending_jobs_witness :
    QuickJsRuntime.has_pending_jobs
      { exceptionSlot := none, pendingJobs := [] } = false :=
  (eval_ok_drains_pending_jobs chainEngine 2 testScript emptyState
    (JSValueRef.new { u := 2, tag := TAG_INT } false true
      "eval result of test.es")
    { exceptionSlot := none, pendingJobs := [] }).1 rfl

/-- C7: on the engine where script throws new Error with message boom, eval
yields the structured error whose message equals boom; and on any engine
run where the raw result is not the exception sentinel and every scheduled
job succeeds, eval returns a value, never a structured error. -/
theorem exception_roundtrip_boom :
    (∀ (fuel : Nat) (script : EsScript) (s : EngineState),
      hasInteriorNul script.path = false → hasInteriorNul script.code = false →
      ∃ s2, QuickJsRuntime.eval boomEngine fuel script s
          = some (Except.error boomError, s2) ∧ boomError.message = "boom") ∧
    (∀ (m : EngineModel) (script : EsScript) (s : EngineState),
      hasInteriorNul script.path = false → hasInteriorNul script.code = false →
      (m.jsEval JS_EVAL_TYPE_GLOBAL script.code script.path s).1.tag ≠ TAG_EXCEPTION →
      jobsAllOk (m.jsEval JS_EVAL_TYPE_GLOBAL script.code script.path s).2.pendingJobs
        = true →
      ∃ r s2, QuickJsRuntime.eval m
          (jobsSize (m.jsEval JS_EVAL_TYPE_GLOBAL script.code script.path s).2.pendingJobs)
          script s = some (Except.ok r, s2)) := by
  constructor
  · intro fuel script s hp hc
    refine ⟨{ exceptionSlot := none, pendingJobs := s.pendingJobs }, ?_, rfl⟩
    have := eval_exception_eq boomEngine fuel script s hp hc rfl
    simpa [boomEngine] using this
  · intro m script s hp hc htag hjobs
    have hmp : make_cstring script.path = Except.ok script.path := by
      simp [make_cstring, hp]
    have hmc : make_cstring script.code = Except.ok script.code := by
      simp [make_cstring, hc]
    obtain ⟨s2, hd⟩ := drainJobs_of_allOk
      (jobsSize (m.jsEval JS_EVAL_TYPE_GLOBAL script.code script.path s).2.pendingJobs)
      (m.jsEval JS_EVAL_TYPE_GLOBAL script.code script.path s).2 hjobs (le_refl _)
    refine ⟨JSValueRef.new (m.jsEval JS_EVAL_TYPE_GLOBAL script.code script.path s).1
        false true ("eval result of " ++ script.path), s2, ?_⟩
    simp [QuickJsRuntime.eval, hmp, hmc, EsScript.get_path, EsScript.get_code,
          JSValueRef.new, JSValueRef.is_exception, htag, hd]

theorem exception_roundtrip_boom_witness :
    (∃ s2, QuickJsRuntime.eval boomEngine 0 testScript emptyState
        = some (Except.error boomError, s2) ∧ boomError.message = "boom") ∧
    (∃ r s2, QuickJsRuntime.eval chainEngine
        (jobsSize (chainEngine.jsEval JS_EVAL_TYPE_GLOBAL testScript.code
          testScript.path emptyState).2.pendingJobs)
        testScript emptyState = some (Except.ok r, s2)) :=
  ⟨exception_roundtrip_boom.1 0 testScript emptyState rfl rfl,
   exception_roundtrip_boom.2 chainEngine testScript emptyState rfl rfl
     (by decide) (by simp [chainEngine, jobsAllOk])⟩

/-- C10: a script whose path or code holds an interior NUL byte makes eval
and eval_module return the could-not-create-cstring error with the engine
state untouched, and the outcome does not depend on the engine model or the
fuel: the evaluation API is never invoked. -/
theorem interior_nul_rejected_before_eval (m m2 : EngineModel)
    (fuel fuel2 : Nat) (script : EsScript) (s : EngineState)
    (h : hasInteriorNul script.path = true ∨ hasInteriorNul script.code = true) :
    (∃ e, QuickJsRuntime.eval m fuel script s = some (Except.error e, s) ∧
      (e.message = "could not create cstring from " ++ script.path ∨
       e.message = "could not create cstring from " ++ script.code)) ∧
    QuickJsRuntime.eval m fuel script s = QuickJsRuntime.eval m2 fuel2 script s ∧
    (∃ e, QuickJsRuntime.eval_module m fuel script s = some (Except.error e, s) ∧
      (e.message = "could not create cstring from " ++ script.path ∨
       e.message = "could not create cstring from " ++ script.code)) ∧
    QuickJsRuntime.eval_module m fuel script s
      = QuickJsRuntime.eval_module m2 fuel2 script s := by
  by_cases hpath : hasInteriorNul script.path = true
  · have hmp : make_cstring script.path
        = Except.error (EsError.new_string
            ("could not create cstring from " ++ script.path)) := by
      simp [make_cstring, hpath]
    refine ⟨⟨EsError.new_string ("could not create cstring from " ++ script.path),
        ?_, Or.inl rfl⟩, ?_,
      ⟨EsError.new_string ("could not create cstring from " ++ script.path),
        ?_, Or.inl rfl⟩, ?_⟩ <;>
      simp [QuickJsRuntime.eval, QuickJsRuntime.eval_module, EsScript.get_path,
            EsScript.get_code, hmp]
  · have hcode : hasInteriorNul script.code = true := by
      rcases h with hcase | hcase
      · exact absurd hcase hpath
      · exact hcase
    have hmp : make_cstring script.path = Except.ok script.path := by
      simp [make_cstring, Bool.not_eq_true _ |>.mp hpath]
    have hmc : make_cstring script.code
        = Except.error (EsError.new_string
            ("could not create cstring from " ++ script.code)) := by
      simp [make_cstring, hcode]
    refine ⟨⟨EsError.new_string ("could not create cstring from " ++ script.code),
        ?_, Or.inr rfl⟩, ?_,
      ⟨EsError.new_string ("could not create cstring from " ++ script.code),
        ?_, Or.inr rfl⟩, ?_⟩ <;>
      simp [QuickJsRuntime.eval, QuickJsRuntime.eval_module, EsScript.get_path,
            EsScript.get_code, hmp, hmc]

theorem interior_nul_rejected_before_eval_witness :
    (∃ e, QuickJsRuntime.eval boomEngine 0 nulScript emptyState
        = some (Except.error e, emptyState) ∧
      (e.message = "could not create cstring from " ++ nulScript.path ∨
       e.message = "could not create cstring from " ++ nulScript.code)) ∧
    QuickJsRuntime.eval boomEngine 0 nulScript emptyState
      = QuickJsRuntime.eval chainEngine 5 nulScript emptyState ∧
    (∃ e, QuickJsRuntime.eval_module boomEngine 0 nulScript emptyState
        = some (Except.error e, emptyState) ∧
      (e.message = "could not create cstring from " ++ nulScript.path ∨
       e.message = "could not create cstring from " ++ nulScript.code)) ∧
    QuickJsRuntime.eval_module boomEngine 0 nulScript emptyState
      = QuickJsRuntime.eval_module chainEngine 5 nulScript emptyState :=
  interior_nul_rejected_before_eval boomEngine chainEngine 0 5 nulScript
    emptyState (Or.inr rfl)
